import Mathlib

/-!
Verification development for `neurophotonics/pipeline/fields.py`.

The file `fields.py` defines two DataJoint lookup tables (`DSim`, `ESim`)
and two computed tables (`DField`, `EField`) whose `make` methods fetch a
parameter row, build a keyword-argument configuration, hand it to the
Monte Carlo photon-transport engine `Space` (defined in the pipeline's
`space` module, modelled here from its specification), run 500 000 photon
hops, and insert the resulting probability volume.

Numeric values are embedded as rationals: every Python float is a finite
binary rational, and the claims under study are structural (which values
flow where), so exact rational arithmetic is a faithful carrier.  The
lossy `np.float32` cast that `make` applies before insertion is embedded
as `f32round`: round-to-nearest at 24 significant bits, the precision of
IEEE-754 binary32 (exponent overflow and subnormal loss are irrelevant at
the magnitudes involved and are not modelled; ties round half-up rather
than half-to-even, which no statement below depends on).
-/

namespace Neurophotonics

/-- A value stored in a fetched row, a keyword-argument dictionary, or an
inserted row: a number, a string, a triple of integers (`dims`), a triple
of numbers (`emitter_size`), an integer count, or a dense array. -/
inductive Val where
  | num (q : ℚ)
  | str (s : String)
  | intT (a b c : ℕ)
  | numT (a b c : ℚ)
  | cnt (n : ℕ)
  | arr (shape : ℕ × ℕ × ℕ) (data : List ℚ)
  deriving DecidableEq

/-- Python `dict` as an ordered association list (insertion order). -/
abbrev Dict := List (String × Val)

/-- The dict comprehension `{k: d[k] for k in d if k in keys}`:
keep the entries of `d` whose key belongs to `keys`, in `d`'s order. -/
def dictFilter (keys : List String) (d : Dict) : Dict :=
  d.filter (fun kv => kv.1 ∈ keys)

/-- Python `dict.update`: for each new pair, overwrite the value in place
if the key is present, otherwise append at the end. -/
def dictUpdate (d : Dict) (kvs : Dict) : Dict :=
  kvs.foldl
    (fun acc kv =>
      if (acc.map Prod.fst).contains kv.1 then
        acc.map (fun p => if p.1 = kv.1 then kv else p)
      else acc ++ [kv])
    d

/-- `d[k]` as a total lookup returning `Option`. -/
def dictLookup (k : String) (d : Dict) : Option Val :=
  (d.find? (fun p => p.1 == k)).map (fun p => p.2)

/-- One row of the `DSim` lookup table (the result of `fetch1`), fields in
table-definition order.  `decimal(5,2)` columns are carried as rationals;
`float(...)` conversion of a decimal is exact and embedded as identity. -/
structure DSimRow where
  dsim : ℕ
  dsim_description : String
  detector_type : String
  detector_width : ℚ
  detector_height : ℚ
  anisotropy : ℚ
  absorption_length : ℚ
  scatter_length : ℚ
  volume_dimx : ℕ
  volume_dimy : ℕ
  volume_dimz : ℕ
  pitch : ℚ

/-- The `fetch1` result of a `DSim` row as a Python dict, keys in column
order (primary key first, then the dependent attributes). -/
def DSimRow.toDict (r : DSimRow) : Dict :=
  [("dsim", Val.cnt r.dsim),
   ("dsim_description", Val.str r.dsim_description),
   ("detector_type", Val.str r.detector_type),
   ("detector_width", Val.num r.detector_width),
   ("detector_height", Val.num r.detector_height),
   ("anisotropy", Val.num r.anisotropy),
   ("absorption_length", Val.num r.absorption_length),
   ("scatter_length", Val.num r.scatter_length),
   ("volume_dimx", Val.cnt r.volume_dimx),
   ("volume_dimy", Val.cnt r.volume_dimy),
   ("volume_dimz", Val.cnt r.volume_dimz),
   ("pitch", Val.num r.pitch)]

/-- One row of the `ESim` lookup table, fields in table-definition order. -/
structure ESimRow where
  esim : ℕ
  esim_description : String
  beam_compression : ℚ
  y_steer : ℚ
  emitter_width : ℚ
  emitter_height : ℚ
  anisotropy : ℚ
  absorption_length : ℚ
  scatter_length : ℚ
  volume_dimx : ℕ
  volume_dimy : ℕ
  volume_dimz : ℕ
  beam_xy_aspect : ℚ
  pitch : ℚ

/-- The `fetch1` result of an `ESim` row as a Python dict. -/
def ESimRow.toDict (r : ESimRow) : Dict :=
  [("esim", Val.cnt r.esim),
   ("esim_description", Val.str r.esim_description),
   ("beam_compression", Val.num r.beam_compression),
   ("y_steer", Val.num r.y_steer),
   ("emitter_width", Val.num r.emitter_width),
   ("emitter_height", Val.num r.emitter_height),
   ("anisotropy", Val.num r.anisotropy),
   ("absorption_length", Val.num r.absorption_length),
   ("scatter_length", Val.num r.scatter_length),
   ("volume_dimx", Val.cnt r.volume_dimx),
   ("volume_dimy", Val.cnt r.volume_dimy),
   ("volume_dimz", Val.cnt r.volume_dimz),
   ("beam_xy_aspect", Val.num r.beam_xy_aspect),
   ("pitch", Val.num r.pitch)]

/-- The key filter set of `DField.make`. -/
def DFieldKeys : List String :=
  ["pitch", "anisotropy", "scatter_length", "absorption_length", "detector_type"]

/-- The keyword arguments `DField.make` passes to `Space`: the filtered
`fetch1` dict updated with `dims`, `emitter_spread="spherical"` and the
planar `emitter_size` triple. -/
def DFieldKwargs (spec : DSimRow) : Dict :=
  dictUpdate (dictFilter DFieldKeys spec.toDict)
    [("dims", Val.intT spec.volume_dimx spec.volume_dimy spec.volume_dimz),
     ("emitter_spread", Val.str "spherical"),
     ("emitter_size", Val.numT spec.detector_width spec.detector_height 0)]

/-- The key filter set of `EField.make`. -/
def EFieldKeys : List String :=
  ["pitch", "anisotropy", "scatter_length", "y_steer", "beam_compression",
   "beam_xy_aspect", "absorption_length"]

/-- The keyword arguments `EField.make` passes to `Space`: the filtered
`fetch1` dict updated with `dims` and the planar `emitter_size` triple
(no `emitter_spread` and no `detector_type` are passed). -/
def EFieldKwargs (spec : ESimRow) : Dict :=
  dictUpdate (dictFilter EFieldKeys spec.toDict)
    [("dims", Val.intT spec.volume_dimx spec.volume_dimy spec.volume_dimz),
     ("emitter_size", Val.numT spec.emitter_width spec.emitter_height 0)]

/-- Round-to-nearest of a positive rational at 24 significant binary
digits: the significand model of an IEEE-754 binary32 value. -/
def f32mag (a : ℚ) : ℚ :=
  (round (a * (2 : ℚ) ^ ((23 : ℤ) - Int.log 2 a)) : ℚ) * (2 : ℚ) ^ (Int.log 2 a - 23)

/-- The `np.float32` cast of one scalar: sign-symmetric rounding of the
magnitude at binary32 precision. -/
def f32round (q : ℚ) : ℚ :=
  if q = 0 then 0 else if q < 0 then -f32mag (-q) else f32mag q

/-- A dense numpy array: a shape triple plus the flat (C-order) buffer. -/
structure NDArr where
  shape : ℕ × ℕ × ℕ
  data : List ℚ
  deriving DecidableEq

/-- `array * scalar`: elementwise scaling, shape preserved. -/
def scaleArr (a : NDArr) (c : ℚ) : NDArr :=
  { shape := a.shape, data := a.data.map (fun x => x * c) }

/-- `np.float32(array)`: cast every entry, shape preserved. -/
def f32cast (a : NDArr) : NDArr :=
  { shape := a.shape, data := a.data.map f32round }

/-- `array.max()`: maximum over the flat buffer (arrays here are
nonempty; the empty case defaults to `0`). -/
def arrMax (a : NDArr) : ℚ :=
  match a.data with
  | [] => 0
  | x :: xs => xs.foldl max x

/-- Modelled from the spec: the photon-transport engine `Space` (module
`neurophotonics/pipeline/space.py`, not part of the visible source).  Per
§3-§5 of the spec it holds the configuration, a dense voxel accumulation
grid of shape `dims` (kept flat here, C-order), the count of completed
walks, and an explicit RNG state (spec §9: implicit random state becomes
an explicit seeded context). -/
structure Space where
  params : Dict
  dims : ℕ × ℕ × ℕ
  emitter_size : ℚ × ℚ × ℚ
  grid : List ℚ
  total_count : ℕ
  seed : ℕ

/-- Modelled from the spec: a fresh engine instance `Space(**kwargs)` —
zeroed accumulation grid of `dims` voxels, no completed walks. -/
def Space.init (params : Dict) (dims : ℕ × ℕ × ℕ) (esize : ℚ × ℚ × ℚ)
    (seed : ℕ) : Space :=
  { params := params, dims := dims, emitter_size := esize,
    grid := List.replicate (dims.1 * dims.2.1 * dims.2.2) 0,
    total_count := 0, seed := seed }

/-- A linear congruential pseudo-random step: the explicit RNG context
required by spec §9. -/
def lcg (n : ℕ) : ℕ := (1103515245 * n + 12345) % 2 ^ 31

/-- One of the six axis directions, selected by a random draw. -/
def axisDir : ℕ → ℤ × ℤ × ℤ
  | 0 => (1, 0, 0)
  | 1 => (-1, 0, 0)
  | 2 => (0, 1, 0)
  | 3 => (0, -1, 0)
  | _ => (0, 0, 1)

/-- Modelled from the spec (§4.3 VoxelAccumulator): map an integer voxel
coordinate to the flat C-order index, or `none` when the photon has left
the grid bounds (which terminates the walk). -/
def flatIndex (dims : ℕ × ℕ × ℕ) (p : ℤ × ℤ × ℤ) : Option ℕ :=
  if 0 ≤ p.1 ∧ p.1 < (dims.1 : ℤ) ∧ 0 ≤ p.2.1 ∧ p.2.1 < (dims.2.1 : ℤ)
      ∧ 0 ≤ p.2.2 ∧ p.2.2 < (dims.2.2 : ℤ) then
    some ((p.1.toNat * dims.2.1 + p.2.1.toNat) * dims.2.2 + p.2.2.toNat)
  else none

/-- Deposit visitation weight `w` into cell `i` of the flat grid. -/
def deposit (g : List ℚ) (i : ℕ) (w : ℚ) : List ℚ :=
  g.set i (g.getD i 0 + w)

/-- Modelled from the spec (§4.3, §4.4, and the degenerate-medium
scenario of §8): march a photon along a straight line, depositing unit
visitation weight into every voxel crossed, until it exits the grid.  The
fuel argument is an upper bound on the number of voxels a straight path
can cross and never binds before the exit test does. -/
def march (dims : ℕ × ℕ × ℕ) (dir : ℤ × ℤ × ℤ) :
    ℕ → ℤ × ℤ × ℤ → List ℚ → List ℚ
  | 0, _, g => g
  | fuel + 1, pos, g =>
    match flatIndex dims pos with
    | none => g
    | some i =>
      march dims dir fuel (pos.1 + dir.1, pos.2.1 + dir.2.1, pos.2.2 + dir.2.2)
        (deposit g i 1)

/-- Modelled from the spec (§4.4): one complete photon trajectory — draw
a direction from the RNG, launch from the grid centre (the aperture sits
at the grid origin), accumulate the straight path, bump the completed-walk
count, and advance the RNG state. -/
def Space.walk (s : Space) : Space :=
  let r := lcg s.seed
  let dir := axisDir (r % 6)
  let fuel := s.dims.1 + s.dims.2.1 + s.dims.2.2 + 1
  { s with
    grid := march s.dims dir fuel
      (((s.dims.1 / 2 : ℕ) : ℤ), ((s.dims.2.1 / 2 : ℕ) : ℤ), ((s.dims.2.2 / 2 : ℕ) : ℤ))
      s.grid
    total_count := s.total_count + 1
    seed := r }

/-- Modelled from the spec (§4.4): `run(hops)` launches exactly `hops`
independent complete photon walks (one trajectory per hop). -/
def Space.run : Space → ℕ → Space
  | s, 0 => s
  | s, n + 1 => Space.run s.walk n

/-- Modelled from the spec (§4.5 ResultPostprocessor): the exposed
`space.volume` — raw accumulation normalized by the photon total, as a
dense array of shape `dims`. -/
def Space.volume (s : Space) : NDArr :=
  { shape := s.dims, data := s.grid.map (fun x => x / (s.total_count : ℚ)) }

/-- Modelled from the spec (§3): `space.emitter_area` — aperture width
times height. -/
def Space.emitter_area (s : Space) : ℚ :=
  s.emitter_size.1 * s.emitter_size.2.1

/-- The `Space(**kwargs)` instance built by `DField.make`: configured
with `DFieldKwargs`, whose `dims` is the spec's dimension triple and
whose `emitter_size` is the planar detector aperture. -/
def mkDSpace (spec : DSimRow) (seed : ℕ) : Space :=
  Space.init (DFieldKwargs spec)
    (spec.volume_dimx, spec.volume_dimy, spec.volume_dimz)
    (spec.detector_width, spec.detector_height, 0) seed

/-- The `Space(**kwargs)` instance built by `EField.make`. -/
def mkESpace (spec : ESimRow) (seed : ℕ) : Space :=
  Space.init (EFieldKwargs spec)
    (spec.volume_dimx, spec.volume_dimy, spec.volume_dimz)
    (spec.emitter_width, spec.emitter_height, 0) seed

/-- The row `DField.make` passes to `insert1`, as a function of the
engine state after `run`: per the source,
`volume = space.volume * space.emitter_area` and the row is
`dict(key, volume=np.float32(volume), max_value=volume.max(),
total_photons=space.total_count)`. -/
def DFieldRow (key : ℕ) (space : Space) : Dict :=
  [("dsim", Val.cnt key),
   ("volume", Val.arr (f32cast (scaleArr space.volume space.emitter_area)).shape
     (f32cast (scaleArr space.volume space.emitter_area)).data),
   ("max_value", Val.num (arrMax (scaleArr space.volume space.emitter_area))),
   ("total_photons", Val.cnt space.total_count)]

/-- The row `EField.make` passes to `insert1`: per the source,
`dict(key, volume=np.float32(space.volume), total_photons=space.total_count)`. -/
def EFieldRow (key : ℕ) (space : Space) : Dict :=
  [("esim", Val.cnt key),
   ("volume", Val.arr (f32cast space.volume).shape (f32cast space.volume).data),
   ("total_photons", Val.cnt space.total_count)]

/-- End-to-end `DField.make`: fetch the spec row, configure the engine,
`run(hops=500_000)`, and build the inserted row. -/
def DFieldMake (spec : DSimRow) (seed : ℕ) : Dict :=
  DFieldRow spec.dsim ((mkDSpace spec seed).run 500000)

/-- End-to-end `EField.make`. -/
def EFieldMake (spec : ESimRow) (seed : ℕ) : Dict :=
  EFieldRow spec.esim ((mkESpace spec seed).run 500000)

/-- Modelled from the spec (§5): each worker's RNG stream derives
deterministically from the run-level seed plus the worker index. -/
def deriveSeed (seed w : ℕ) : ℕ := lcg (seed + w)

/-- Elementwise merge of two worker grids (spec §5, discipline (a)). -/
def addGrids (a b : List ℚ) : List ℚ :=
  List.zipWith (fun x y => x + y) a b

/-- Modelled from the spec (§5): a parallel run over a fixed worker
partitioning — worker `w` executes `part[w]` complete photon walks with
its derived stream on a private grid; the grids are merged by elementwise
summation at the end of `run`. -/
def runPartitioned (params : Dict) (dims : ℕ × ℕ × ℕ) (esize : ℚ × ℚ × ℚ)
    (seed : ℕ) (part : List ℕ) : List ℚ :=
  (List.range part.length).foldl
    (fun acc w =>
      addGrids acc ((Space.init params dims esize (deriveSeed seed w)).run (part.getD w 0)).grid)
    (List.replicate (dims.1 * dims.2.1 * dims.2.2) 0)

/-- A small concrete `DSim` row used to instantiate universally
quantified theorems. -/
def dsimRow0 : DSimRow :=
  { dsim := 0, dsim_description := "test detector",
    detector_type := "one-sided", detector_width := 10, detector_height := 10,
    anisotropy := 22 / 25, absorption_length := 14000, scatter_length := 100,
    volume_dimx := 4, volume_dimy := 4, volume_dimz := 4, pitch := 11 / 5 }

/-- A small concrete `ESim` row. -/
def esimRow0 : ESimRow :=
  { esim := 0, esim_description := "test emitter",
    beam_compression := 1, y_steer := 0, emitter_width := 10, emitter_height := 10,
    anisotropy := 22 / 25, absorption_length := 14000, scatter_length := 100,
    volume_dimx := 4, volume_dimy := 4, volume_dimz := 4,
    beam_xy_aspect := 1, pitch := 11 / 5 }

/-- A concrete engine state after a hypothetical run: unit aperture, one
grid cell holding raw weight 1 over 3 photons, so `volume = [1/3]` —
a value that binary32 cannot represent exactly. -/
def spaceThird : Space :=
  { params := [], dims := (1, 1, 1), emitter_size := (1, 1, 0),
    grid := [1], total_count := 3, seed := 0 }

/-- A concrete engine state whose volume is `[2/3]`: also inexact in
binary32, and rounded upward by the cast. -/
def spaceTwoThirds : Space :=
  { params := [], dims := (1, 1, 1), emitter_size := (1, 1, 0),
    grid := [2], total_count := 3, seed := 0 }

/-- A concrete engine state whose scaled volume maximum is `3/2 ≥ 1`. -/
def spaceHot : Space :=
  { params := [], dims := (1, 1, 1), emitter_size := (1, 1, 0),
    grid := [3], total_count := 2, seed := 0 }

lemma getD_nonneg {g : List ℚ} (hg : ∀ x ∈ g, 0 ≤ x) (i : ℕ) : 0 ≤ g.getD i 0 := by
  by_cases hi : i < g.length
  · rw [List.getD_eq_getElem g 0 hi]
    exact hg _ (List.getElem_mem hi)
  · rw [List.getD_eq_default g 0 (Nat.le_of_not_lt hi)]

lemma deposit_length (g : List ℚ) (i : ℕ) (w : ℚ) :
    (deposit g i w).length = g.length := by
  simp [deposit]

lemma deposit_nonneg {g : List ℚ} (hg : ∀ x ∈ g, 0 ≤ x) {w : ℚ} (hw : 0 ≤ w)
    (i : ℕ) : ∀ x ∈ deposit g i w, 0 ≤ x := by
  intro x hx
  rcases List.mem_or_eq_of_mem_set hx with h | h
  · exact hg x h
  · subst h
    exact add_nonneg (getD_nonneg hg i) hw

lemma march_length (dims : ℕ × ℕ × ℕ) (dir : ℤ × ℤ × ℤ) (fuel : ℕ) :
    ∀ (pos : ℤ × ℤ × ℤ) (g : List ℚ), (march dims dir fuel pos g).length = g.length := by
  induction fuel with
  | zero => intro pos g; rfl
  | succ n ih =>
    intro pos g
    unfold march
    cases h : flatIndex dims pos with
    | none => rfl
    | some i => rw [ih, deposit_length]

lemma march_nonneg (dims : ℕ × ℕ × ℕ) (dir : ℤ × ℤ × ℤ) (fuel : ℕ) :
    ∀ (pos : ℤ × ℤ × ℤ) {g : List ℚ}, (∀ x ∈ g, 0 ≤ x) →
      ∀ x ∈ march dims dir fuel pos g, 0 ≤ x := by
  induction fuel with
  | zero => intro pos g hg; exact hg
  | succ n ih =>
    intro pos g hg
    unfold march
    cases h : flatIndex dims pos with
    | none => exact hg
    | some i => exact ih _ (deposit_nonneg hg (by norm_num) i)

lemma walk_params (s : Space) : s.walk.params = s.params := rfl

lemma walk_dims (s : Space) : s.walk.dims = s.dims := rfl

lemma walk_esize (s : Space) : s.walk.emitter_size = s.emitter_size := rfl

lemma walk_total (s : Space) : s.walk.total_count = s.total_count + 1 := rfl

lemma walk_grid_length (s : Space) : s.walk.grid.length = s.grid.length :=
  march_length _ _ _ _ _

lemma walk_grid_nonneg {s : Space} (h : ∀ x ∈ s.grid, 0 ≤ x) :
    ∀ x ∈ s.walk.grid, 0 ≤ x :=
  march_nonneg _ _ _ _ h

lemma run_dims (s : Space) (n : ℕ) : (s.run n).dims = s.dims := by
  induction n generalizing s with
  | zero => rfl
  | succ k ih => exact (ih s.walk).trans (walk_dims s)

lemma run_esize (s : Space) (n : ℕ) : (s.run n).emitter_size = s.emitter_size := by
  induction n generalizing s with
  | zero => rfl
  | succ k ih => exact (ih s.walk).trans (walk_esize s)

lemma run_total (s : Space) (n : ℕ) : (s.run n).total_count = s.total_count + n := by
  induction n generalizing s with
  | zero => rfl
  | succ k ih =>
    show ((s.walk).run k).total_count = s.total_count + (k + 1)
    rw [ih s.walk, walk_total]
    omega

lemma run_grid_length (s : Space) (n : ℕ) : (s.run n).grid.length = s.grid.length := by
  induction n generalizing s with
  | zero => rfl
  | succ k ih => exact (ih s.walk).trans (walk_grid_length s)

lemma run_grid_nonneg {s : Space} (h : ∀ x ∈ s.grid, 0 ≤ x) (n : ℕ) :
    ∀ x ∈ (s.run n).grid, 0 ≤ x := by
  induction n generalizing s with
  | zero => exact h
  | succ k ih => exact ih (walk_grid_nonneg h)

lemma init_grid_nonneg (params : Dict) (dims : ℕ × ℕ × ℕ) (esize : ℚ × ℚ × ℚ)
    (seed : ℕ) : ∀ x ∈ (Space.init params dims esize seed).grid, 0 ≤ x := by
  intro x hx
  rw [List.eq_of_mem_replicate hx]

lemma volume_data_nonneg {s : Space} (h : ∀ x ∈ s.grid, 0 ≤ x) :
    ∀ x ∈ s.volume.data, 0 ≤ x := by
  intro x hx
  rcases List.mem_map.mp hx with ⟨y, hy, rfl⟩
  exact div_nonneg (h y hy) (Nat.cast_nonneg _)

lemma round_nonneg_of_nonneg {x : ℚ} (hx : 0 ≤ x) : (0 : ℤ) ≤ round x := by
  rw [round_eq, Int.floor_nonneg]
  linarith

lemma f32mag_nonneg {a : ℚ} (ha : 0 ≤ a) : 0 ≤ f32mag a := by
  unfold f32mag
  have h1 : (0 : ℚ) ≤ round (a * (2 : ℚ) ^ ((23 : ℤ) - Int.log 2 a)) := by
    exact_mod_cast round_nonneg_of_nonneg (mul_nonneg ha (by positivity))
  exact mul_nonneg h1 (by positivity)

lemma f32round_nonneg {q : ℚ} (hq : 0 ≤ q) : 0 ≤ f32round q := by
  unfold f32round
  by_cases h0 : q = 0
  · rw [if_pos h0]
  · rw [if_neg h0, if_neg (not_lt.mpr hq)]
    exact f32mag_nonneg hq

lemma log2_two_thirds : Int.log 2 ((2 : ℚ) / 3) = -1 := by
  rw [Int.log_of_right_le_one 2 (by norm_num)]
  have h1 : ((2 : ℚ) / 3)⁻¹ = 3 / 2 := by norm_num
  have h2 : (⌈(3 : ℚ) / 2⌉₊ : ℕ) = 2 := by
    rw [Nat.ceil_eq_iff (by norm_num)]
    norm_num
  rw [h1, h2, Nat.clog_eq_one (le_refl 2) (le_refl 2)]
  rfl

lemma f32round_two_thirds : f32round ((2 : ℚ) / 3) = 11184811 / 2 ^ 24 := by
  have hround : round ((2 : ℚ) / 3 * (2 : ℚ) ^ ((23 : ℤ) - (-1))) = 11184811 := by
    rw [round_eq, Int.floor_eq_iff]
    norm_num
  unfold f32round f32mag
  rw [if_neg (by norm_num : ¬((2 : ℚ) / 3 = 0)),
    if_neg (by norm_num : ¬((2 : ℚ) / 3 < 0)), log2_two_thirds, hround]
  norm_num

lemma dvol_shape (s : Space) :
    (f32cast (scaleArr s.volume s.emitter_area)).shape = s.dims := rfl

lemma dvol_length (s : Space) :
    (f32cast (scaleArr s.volume s.emitter_area)).data.length = s.grid.length := by
  simp [f32cast, scaleArr, Space.volume]

lemma dvol_mem {s : Space} {x : ℚ}
    (hx : x ∈ (f32cast (scaleArr s.volume s.emitter_area)).data)
    (hg : ∀ y ∈ s.grid, 0 ≤ y) (ha : 0 ≤ s.emitter_area) : 0 ≤ x := by
  simp only [f32cast, scaleArr, Space.volume, List.map_map, List.mem_map] at hx
  obtain ⟨y, hy, rfl⟩ := hx
  exact f32round_nonneg (mul_nonneg (div_nonneg (hg y hy) (Nat.cast_nonneg _)) ha)

lemma evol_shape (s : Space) : (f32cast s.volume).shape = s.dims := rfl

lemma evol_length (s : Space) : (f32cast s.volume).data.length = s.grid.length := by
  simp [f32cast, Space.volume]

lemma evol_mem {s : Space} {x : ℚ} (hx : x ∈ (f32cast s.volume).data)
    (hg : ∀ y ∈ s.grid, 0 ≤ y) : 0 ≤ x := by
  simp only [f32cast, Space.volume, List.map_map, List.mem_map] at hx
  obtain ⟨y, hy, rfl⟩ := hx
  exact f32round_nonneg (div_nonneg (hg y hy) (Nat.cast_nonneg _))

/-- Claim C2: for every parameter set, `run(hops=N)` completes exactly
`N` photon walks, so the engine reports `total_count = N`; both
`DField.make` and `EField.make` call `run(hops=500_000)` and store
`total_photons = 500000` in the inserted row. -/
theorem total_photons_eq_hops (params : Dict) (dims : ℕ × ℕ × ℕ)
    (esize : ℚ × ℚ × ℚ) (seed hops : ℕ) (specD : DSimRow) (specE : ESimRow)
    (s₁ s₂ : ℕ) :
    ((Space.init params dims esize seed).run hops).total_count = hops ∧
    dictLookup "total_photons" (DFieldMake specD s₁) = some (Val.cnt 500000) ∧
    dictLookup "total_photons" (EFieldMake specE s₂) = some (Val.cnt 500000) := by
  refine ⟨?_, ?_, ?_⟩
  · rw [run_total]
    show 0 + hops = hops
    exact Nat.zero_add hops
  · have h : dictLookup "total_photons" (DFieldMake specD s₁) =
        some (Val.cnt ((mkDSpace specD s₁).run 500000).total_count) := rfl
    have h0 : (mkDSpace specD s₁).total_count = 0 := rfl
    rw [h, run_total, h0]
  · have h : dictLookup "total_photons" (EFieldMake specE s₂) =
        some (Val.cnt ((mkESpace specE s₂).run 500000).total_count) := rfl
    have h0 : (mkESpace specE s₂).total_count = 0 := rfl
    rw [h, run_total, h0]

/-- Claim C5 (counterexample): refuting the claim that `EField.make`
passes `emitter_spread` to the engine — for the concrete `ESim` row
`esimRow0`, the configuration built by `EField.make` has no
`emitter_spread` key. -/
theorem efield_kwargs_missing_emitter_spread :
    "emitter_spread" ∉ (EFieldKwargs esimRow0).map Prod.fst := by decide

/-- Claim C5 (amended): the configuration passed to the engine contains
exactly the recognized options of the variant: `DField.make` passes
`pitch`, `anisotropy`, `scatter_length`, `absorption_length`,
`detector_type`, `dims`, `emitter_spread`, `emitter_size` and no beam
parameters; `EField.make` passes `pitch`, `anisotropy`,
`scatter_length`, `absorption_length`, `y_steer`, `beam_compression`,
`beam_xy_aspect`, `dims`, `emitter_size`, and neither `detector_type`
nor `emitter_spread`. -/
theorem kwargs_keys_exact (specD : DSimRow) (specE : ESimRow) :
    (DFieldKwargs specD).map Prod.fst =
      ["detector_type", "anisotropy", "absorption_length", "scatter_length",
       "pitch", "dims", "emitter_spread", "emitter_size"] ∧
    "y_steer" ∉ (DFieldKwargs specD).map Prod.fst ∧
    "beam_compression" ∉ (DFieldKwargs specD).map Prod.fst ∧
    "beam_xy_aspect" ∉ (DFieldKwargs specD).map Prod.fst ∧
    (EFieldKwargs specE).map Prod.fst =
      ["beam_compression", "y_steer", "anisotropy", "absorption_length",
       "scatter_length", "beam_xy_aspect", "pitch", "dims", "emitter_size"] ∧
    "detector_type" ∉ (EFieldKwargs specE).map Prod.fst ∧
    "emitter_spread" ∉ (EFieldKwargs specE).map Prod.fst := by
  have hD : (DFieldKwargs specD).map Prod.fst =
      ["detector_type", "anisotropy", "absorption_length", "scatter_length",
       "pitch", "dims", "emitter_spread", "emitter_size"] := rfl
  have hE : (EFieldKwargs specE).map Prod.fst =
      ["beam_compression", "y_steer", "anisotropy", "absorption_length",
       "scatter_length", "beam_xy_aspect", "pitch", "dims", "emitter_size"] := rfl
  refine ⟨hD, ?_, ?_, ?_, hE, ?_, ?_⟩
  · rw [hD]; decide
  · rw [hD]; decide
  · rw [hD]; decide
  · rw [hE]; decide
  · rw [hE]; decide

/-- Claim C6: the row inserted by the detector variant carries exactly
the key plus `volume`, `max_value`, `total_photons`; the emitter
variant's row carries exactly the key plus `volume`, `total_photons`,
and never a `max_value` field. -/
theorem output_row_fields_exact (keyD keyE : ℕ) (sD sE : Space) :
    (DFieldRow keyD sD).map Prod.fst =
      ["dsim", "volume", "max_value", "total_photons"] ∧
    (EFieldRow keyE sE).map Prod.fst = ["esim", "volume", "total_photons"] ∧
    "max_value" ∉ (EFieldRow keyE sE).map Prod.fst := by
  have hE : (EFieldRow keyE sE).map Prod.fst = ["esim", "volume", "total_photons"] := rfl
  refine ⟨rfl, hE, ?_⟩
  rw [hE]
  decide

/-- Claim C7: in both variants the `emitter_size` passed to the engine
is the triple (aperture width, aperture height, 0) — a planar
rectangular aperture in the x-y plane — for every row of the `DSim` or
`ESim` lookup. -/
theorem emitter_size_is_planar_triple (specD : DSimRow) (specE : ESimRow) :
    dictLookup "emitter_size" (DFieldKwargs specD) =
      some (Val.numT specD.detector_width specD.detector_height 0) ∧
    dictLookup "emitter_size" (EFieldKwargs specE) =
      some (Val.numT specE.emitter_width specE.emitter_height 0) :=
  ⟨rfl, rfl⟩

/-- Claim C9: given an identical seed and parameter set, two executions
of `make` (hence two runs of the engine) on the same worker partitioning
produce bit-identical volume arrays — stated for the worker-partitioned
engine run and for both end-to-end `make` pipelines. -/
theorem volume_deterministic_given_seed_and_partition
    (params₁ params₂ : Dict) (dims₁ dims₂ : ℕ × ℕ × ℕ) (es₁ es₂ : ℚ × ℚ × ℚ)
    (seed₁ seed₂ : ℕ) (part₁ part₂ : List ℕ)
    (specD₁ specD₂ : DSimRow) (specE₁ specE₂ : ESimRow) (g₁ g₂ t₁ t₂ : ℕ)
    (hparams : params₁ = params₂) (hdims : dims₁ = dims₂) (hes : es₁ = es₂)
    (hseed : seed₁ = seed₂) (hpart : part₁ = part₂)
    (hD : specD₁ = specD₂) (hg : g₁ = g₂) (hE : specE₁ = specE₂) (ht : t₁ = t₂) :
    runPartitioned params₁ dims₁ es₁ seed₁ part₁ =
      runPartitioned params₂ dims₂ es₂ seed₂ part₂ ∧
    DFieldMake specD₁ g₁ = DFieldMake specD₂ g₂ ∧
    EFieldMake specE₁ t₁ = EFieldMake specE₂ t₂ := by
  subst hparams hdims hes hseed hpart hD hg hE ht
  exact ⟨rfl, rfl, rfl⟩

/-- Witness for C9 at concrete inputs. -/
theorem volume_deterministic_witness :
    ([] : Dict) = [] ∧ ((2, 2, 2) : ℕ × ℕ × ℕ) = (2, 2, 2) ∧
    ((1, 1, 0) : ℚ × ℚ × ℚ) = (1, 1, 0) ∧ (7 : ℕ) = 7 ∧ ([2, 3] : List ℕ) = [2, 3] ∧
    dsimRow0 = dsimRow0 ∧ (0 : ℕ) = 0 ∧ esimRow0 = esimRow0 ∧ (1 : ℕ) = 1 ∧
    (runPartitioned [] (2, 2, 2) (1, 1, 0) 7 [2, 3] =
        runPartitioned [] (2, 2, 2) (1, 1, 0) 7 [2, 3] ∧
      DFieldMake dsimRow0 0 = DFieldMake dsimRow0 0 ∧
      EFieldMake esimRow0 1 = EFieldMake esimRow0 1) :=
  ⟨rfl, rfl, rfl, rfl, rfl, rfl, rfl, rfl, rfl,
    volume_deterministic_given_seed_and_partition [] [] (2, 2, 2) (2, 2, 2)
      (1, 1, 0) (1, 1, 0) 7 7 [2, 3] [2, 3] dsimRow0 dsimRow0 esimRow0 esimRow0
      0 0 1 1 rfl rfl rfl rfl rfl rfl rfl rfl rfl⟩

/-- Claim C1 (counterexample): the volume stored by `DField.make` does
not equal `space.volume * space.emitter_area` exactly — at the engine
state `spaceTwoThirds` (scaled volume `[2/3]`) the stored array holds the
binary32 rounding of `2/3`, which differs from `2/3`. -/
theorem dfield_stored_volume_ne_scaled_raw :
    dictLookup "volume" (DFieldRow 0 spaceTwoThirds) ≠
      some (Val.arr (scaleArr spaceTwoThirds.volume spaceTwoThirds.emitter_area).shape
        (scaleArr spaceTwoThirds.volume spaceTwoThirds.emitter_area).data) := by
  have hval : dictLookup "volume" (DFieldRow 0 spaceTwoThirds) =
      some (Val.arr (1, 1, 1) [f32round (2 / ((3 : ℕ) : ℚ) * (1 * 1))]) := rfl
  have hsh : (scaleArr spaceTwoThirds.volume spaceTwoThirds.emitter_area).shape
      = (1, 1, 1) := rfl
  have hdata : (scaleArr spaceTwoThirds.volume spaceTwoThirds.emitter_area).data
      = [2 / ((3 : ℕ) : ℚ) * (1 * 1)] := rfl
  rw [hval, hsh, hdata]
  intro h
  have h2 := Val.arr.inj (Option.some.inj h)
  have h3 : f32round (2 / ((3 : ℕ) : ℚ) * (1 * 1)) = 2 / ((3 : ℕ) : ℚ) * (1 * 1) :=
    (List.cons.inj h2.2).1
  have h4 : (2 : ℚ) / ((3 : ℕ) : ℚ) * (1 * 1) = 2 / 3 := by push_cast; ring
  rw [h4, f32round_two_thirds] at h3
  norm_num at h3

/-- Claim C1 (amended): the volume stored by `DField.make` is the
float32 cast of the engine's raw volume scaled elementwise by
`space.emitter_area` — each stored entry is `f32round` of (raw entry ×
area) — while `EField.make` stores the float32 cast of `space.volume`
with no area scaling. -/
theorem stored_volume_eq_f32cast_of_scaled (keyD keyE : ℕ) (sD sE : Space) :
    dictLookup "volume" (DFieldRow keyD sD) =
      some (Val.arr sD.dims
        (sD.volume.data.map (fun x => f32round (x * sD.emitter_area)))) ∧
    dictLookup "volume" (EFieldRow keyE sE) =
      some (Val.arr sE.dims (sE.volume.data.map f32round)) := by
  constructor
  · have h : dictLookup "volume" (DFieldRow keyD sD) =
        some (Val.arr (f32cast (scaleArr sD.volume sD.emitter_area)).shape
          (f32cast (scaleArr sD.volume sD.emitter_area)).data) := rfl
    rw [h]
    simp only [f32cast, scaleArr, List.map_map]
    rfl
  · rfl

/-- Claim C3 (counterexample): the stored `max_value` does not equal the
maximum entry of the stored volume array — at the engine state
`spaceTwoThirds` the row stores `max_value = 2/3` (pre-cast) while the
stored float32 volume's maximum is the binary32 rounding of `2/3`. -/
theorem dfield_max_value_ne_stored_volume_max :
    dictLookup "max_value" (DFieldRow 0 spaceTwoThirds) =
      some (Val.num (2 / ((3 : ℕ) : ℚ) * (1 * 1))) ∧
    dictLookup "volume" (DFieldRow 0 spaceTwoThirds) =
      some (Val.arr (1, 1, 1) [f32round (2 / ((3 : ℕ) : ℚ) * (1 * 1))]) ∧
    (2 : ℚ) / ((3 : ℕ) : ℚ) * (1 * 1) ≠
      arrMax ⟨(1, 1, 1), [f32round (2 / ((3 : ℕ) : ℚ) * (1 * 1))]⟩ := by
  refine ⟨rfl, rfl, ?_⟩
  show (2 : ℚ) / ((3 : ℕ) : ℚ) * (1 * 1) ≠ f32round (2 / ((3 : ℕ) : ℚ) * (1 * 1))
  have h4 : (2 : ℚ) / ((3 : ℕ) : ℚ) * (1 * 1) = 2 / 3 := by push_cast; ring
  rw [h4, f32round_two_thirds]
  norm_num

/-- Claim C3 (amended): for every completed `DField.make`, the stored
`max_value` equals the maximum entry of the scaled volume array before
the float32 storage cast (it can differ from the maximum of the stored
float32 array). -/
theorem dfield_max_value_eq_precast_max (key : ℕ) (space : Space) :
    dictLookup "max_value" (DFieldRow key space) =
      some (Val.num (arrMax (scaleArr space.volume space.emitter_area))) := rfl

/-- Claim C10: in both `make` variants the persisted volume is cast to
float32 before insertion, and in `DField` the stored `max_value` is
computed from the pre-cast array — which genuinely differs from the
stored float32 array's maximum at the state `spaceTwoThirds`. -/
theorem volume_f32cast_and_max_value_precast (keyD keyE : ℕ) (sD sE : Space) :
    dictLookup "volume" (DFieldRow keyD sD) =
      some (Val.arr (f32cast (scaleArr sD.volume sD.emitter_area)).shape
        (f32cast (scaleArr sD.volume sD.emitter_area)).data) ∧
    dictLookup "volume" (EFieldRow keyE sE) =
      some (Val.arr (f32cast sE.volume).shape (f32cast sE.volume).data) ∧
    dictLookup "max_value" (DFieldRow keyD sD) =
      some (Val.num (arrMax (scaleArr sD.volume sD.emitter_area))) ∧
    arrMax (f32cast (scaleArr spaceTwoThirds.volume spaceTwoThirds.emitter_area)) ≠
      arrMax (scaleArr spaceTwoThirds.volume spaceTwoThirds.emitter_area) := by
  refine ⟨rfl, rfl, rfl, ?_⟩
  show f32round (2 / ((3 : ℕ) : ℚ) * (1 * 1)) ≠ 2 / ((3 : ℕ) : ℚ) * (1 * 1)
  have h4 : (2 : ℚ) / ((3 : ℕ) : ℚ) * (1 * 1) = 2 / 3 := by push_cast; ring
  rw [h4, f32round_two_thirds]
  norm_num

/-- Claim C8: `DField.make` performs no validation of `max_value`: even
when the scaled volume's maximum is ≥ 1, the full row — carrying that
out-of-range `max_value` unchanged — is still built and inserted. -/
theorem dfield_insert_despite_max_value_ge_one (key : ℕ) (space : Space)
    (h : 1 ≤ arrMax (scaleArr space.volume space.emitter_area)) :
    ∃ m : ℚ, dictLookup "max_value" (DFieldRow key space) = some (Val.num m) ∧
      1 ≤ m ∧
      (DFieldRow key space).map Prod.fst =
        ["dsim", "volume", "max_value", "total_photons"] :=
  ⟨arrMax (scaleArr space.volume space.emitter_area), rfl, h, rfl⟩

/-- Witness for C8 at the concrete state `spaceHot` (scaled maximum 3/2). -/
theorem dfield_insert_despite_max_value_ge_one_witness :
    1 ≤ arrMax (scaleArr spaceHot.volume spaceHot.emitter_area) ∧
    ∃ m : ℚ, dictLookup "max_value" (DFieldRow 0 spaceHot) = some (Val.num m) ∧
      1 ≤ m ∧
      (DFieldRow 0 spaceHot).map Prod.fst =
        ["dsim", "volume", "max_value", "total_photons"] := by
  have hm : arrMax (scaleArr spaceHot.volume spaceHot.emitter_area)
      = 3 / ((2 : ℕ) : ℚ) * (1 * 1) := rfl
  have h1 : 1 ≤ arrMax (scaleArr spaceHot.volume spaceHot.emitter_area) := by
    rw [hm]
    push_cast
    norm_num
  exact ⟨h1, dfield_insert_despite_max_value_ge_one 0 spaceHot h1⟩

/-- Claim C4: for every completed run, the volume stored by `make` has
shape exactly `dims` — the triple (volume_dimx, volume_dimy,
volume_dimz) — with `dimx·dimy·dimz` entries, all non-negative; the
`emitter_area` scaling and the float32 cast performed in `make` preserve
both properties (the detector aperture sides are non-negative). -/
theorem stored_volume_shape_eq_dims_and_nonneg (specD : DSimRow) (specE : ESimRow)
    (s₁ s₂ : ℕ) (hw : 0 ≤ specD.detector_width) (hh : 0 ≤ specD.detector_height) :
    (∃ sh data, dictLookup "volume" (DFieldMake specD s₁) = some (Val.arr sh data) ∧
      sh = (specD.volume_dimx, specD.volume_dimy, specD.volume_dimz) ∧
      data.length = specD.volume_dimx * specD.volume_dimy * specD.volume_dimz ∧
      ∀ x ∈ data, 0 ≤ x) ∧
    (∃ sh data, dictLookup "volume" (EFieldMake specE s₂) = some (Val.arr sh data) ∧
      sh = (specE.volume_dimx, specE.volume_dimy, specE.volume_dimz) ∧
      data.length = specE.volume_dimx * specE.volume_dimy * specE.volume_dimz ∧
      ∀ x ∈ data, 0 ≤ x) := by
  constructor
  · refine ⟨(f32cast (scaleArr ((mkDSpace specD s₁).run 500000).volume
        ((mkDSpace specD s₁).run 500000).emitter_area)).shape,
      (f32cast (scaleArr ((mkDSpace specD s₁).run 500000).volume
        ((mkDSpace specD s₁).run 500000).emitter_area)).data, rfl, ?_, ?_, ?_⟩
    · rw [dvol_shape, run_dims]
      rfl
    · rw [dvol_length, run_grid_length]
      have hg : (mkDSpace specD s₁).grid =
          List.replicate (specD.volume_dimx * specD.volume_dimy * specD.volume_dimz)
            (0 : ℚ) := rfl
      rw [hg]
      exact List.length_replicate _ _
    · intro x hx
      have hG : ∀ y ∈ ((mkDSpace specD s₁).run 500000).grid, 0 ≤ y :=
        run_grid_nonneg (init_grid_nonneg _ _ _ _) 500000
      have harea : 0 ≤ ((mkDSpace specD s₁).run 500000).emitter_area := by
        have he : ((mkDSpace specD s₁).run 500000).emitter_size
            = (specD.detector_width, specD.detector_height, 0) := run_esize _ _
        unfold Space.emitter_area
        rw [he]
        exact mul_nonneg hw hh
      exact dvol_mem hx hG harea
  · refine ⟨(f32cast ((mkESpace specE s₂).run 500000).volume).shape,
      (f32cast ((mkESpace specE s₂).run 500000).volume).data, rfl, ?_, ?_, ?_⟩
    · rw [evol_shape, run_dims]
      rfl
    · rw [evol_length, run_grid_length]
      have hg : (mkESpace specE s₂).grid =
          List.replicate (specE.volume_dimx * specE.volume_dimy * specE.volume_dimz)
            (0 : ℚ) := rfl
      rw [hg]
      exact List.length_replicate _ _
    · intro x hx
      exact evol_mem hx (run_grid_nonneg (init_grid_nonneg _ _ _ _) 500000)

/-- Witness for C4 at the concrete rows `dsimRow0` and `esimRow0`. -/
theorem stored_volume_shape_eq_dims_and_nonneg_witness :
    0 ≤ dsimRow0.detector_width ∧ 0 ≤ dsimRow0.detector_height ∧
    ((∃ sh data, dictLookup "volume" (DFieldMake dsimRow0 0) = some (Val.arr sh data) ∧
      sh = (dsimRow0.volume_dimx, dsimRow0.volume_dimy, dsimRow0.volume_dimz) ∧
      data.length = dsimRow0.volume_dimx * dsimRow0.volume_dimy * dsimRow0.volume_dimz ∧
      ∀ x ∈ data, 0 ≤ x) ∧
    (∃ sh data, dictLookup "volume" (EFieldMake esimRow0 0) = some (Val.arr sh data) ∧
      sh = (esimRow0.volume_dimx, esimRow0.volume_dimy, esimRow0.volume_dimz) ∧
      data.length = esimRow0.volume_dimx * esimRow0.volume_dimy * esimRow0.volume_dimz ∧
      ∀ x ∈ data, 0 ≤ x)) := by
  have hw : 0 ≤ dsimRow0.detector_width := by decide
  have hh : 0 ≤ dsimRow0.detector_height := by decide
  exact ⟨hw, hh, stored_volume_shape_eq_dims_and_nonneg dsimRow0 esimRow0 0 0 hw hh⟩

end Neurophotonics
